import Mathlib

/-!
Verification of the facial-expression-recognition pipeline in
`controller/cvision.py` and `model/esr/fer.py`.

The pipeline is shallowly embedded: the opaque collaborators (the dlib CNN
detector, the Haar cascade, image resizing, the ensemble network) are
parameters of the embedded functions, and the numeric code operates on `ℚ`
(the Python floats appearing here — scale factors 0.2/0.5/1.0 and their
reciprocals, arousal renormalisation — are exactly representable, and
`1/0.2`, `1/0.5`, `1/1.0` evaluate to exactly `5.0`, `2.0`, `1.0` in IEEE
double precision, so integer box coordinates rescale exactly).
-/

namespace CVision

/-- A detected face box as produced by `_dlib_face_detection` /
`_haar_cascade_face_detection`: one row `[[xi, yi], [xf, yf]]` of the
coordinates array. -/
structure FaceBox where
  xi : ℤ
  yi : ℤ
  xf : ℤ
  yf : ℤ
deriving DecidableEq, Repr

/-- `np.sum` of one coordinate row `[[xi, yi], [xf, yf]]`. -/
def boxSum (b : FaceBox) : ℤ :=
  b.xi + b.yi + b.xf + b.yf

/-- `_ID_FACE_DETECTOR_DLIB = 1` (cvision.py line 38). -/
def ID_FACE_DETECTOR_DLIB : ℤ := 1

/-- `_ID_FACE_DETECTOR_DLIB_STANDARD = 2` (cvision.py line 39). -/
def ID_FACE_DETECTOR_DLIB_STANDARD : ℤ := 2

/-- `_ID_FACE_DETECTOR_HAAR_CASCADE = 3` (cvision.py line 42). -/
def ID_FACE_DETECTOR_HAAR_CASCADE : ℤ := 3

/-- `_DLIB_SCALE_FACTOR_SMALL_IMAGES = [0.5, 1.0]` (cvision.py line 33). -/
def DLIB_SCALE_FACTOR_SMALL_IMAGES : List ℚ := [1/2, 1]

/-- `_DLIB_SCALE_FACTOR_LARGE_IMAGES = [0.2, 0.5]` (cvision.py line 34). -/
def DLIB_SCALE_FACTOR_LARGE_IMAGES : List ℚ := [1/5, 1/2]

/-- `_DLIB_SCALE_FACTOR_THRESHOLD = (500 * 500)` (cvision.py line 35). -/
def DLIB_SCALE_FACTOR_THRESHOLD : ℕ := 500 * 500

/-- Truncation toward zero, the conversion `numpy.ndarray.astype(int)`
performs on each float entry. -/
def ratTrunc (q : ℚ) : ℤ :=
  if 0 ≤ q then ⌊q⌋ else ⌈q⌉

/-- `((1 / scale) * face_coordinates).astype(int)` (cvision.py line 78),
applied to one box: every coordinate is multiplied by `1 / scale` and
converted to int. -/
def rescaleBox (scale : ℚ) (b : FaceBox) : FaceBox :=
  { xi := ratTrunc ((1 / scale) * b.xi)
    yi := ratTrunc ((1 / scale) * b.yi)
    xf := ratTrunc ((1 / scale) * b.xf)
    yf := ratTrunc ((1 / scale) * b.yf) }

/-- The scale-factor list chosen at cvision.py line 69:
`_DLIB_SCALE_FACTOR_LARGE_IMAGES if greyscale_image.size > threshold else
_DLIB_SCALE_FACTOR_SMALL_IMAGES`.  `greySize` is the greyscale image's
total pixel count (`ndarray.size`). -/
def scaleFactorsFor (greySize : ℕ) : List ℚ :=
  if greySize > DLIB_SCALE_FACTOR_THRESHOLD then DLIB_SCALE_FACTOR_LARGE_IMAGES
  else DLIB_SCALE_FACTOR_SMALL_IMAGES

/-- The `for scale in scale_factors` loop of cvision.py lines 72-79.
`dlibDetectAt s` stands for the boxes returned by `_dlib_face_detection`
on the greyscale image down-sampled by factor `s` (the detector and
`uimage.resize` are opaque collaborators).  The loop stops at the first
scale returning at least one face and rescales those coordinates; if no
scale yields a face the result is the empty coordinate list. -/
def multiscaleLoop (dlibDetectAt : ℚ → List FaceBox) : List ℚ → List FaceBox
  | [] => []
  | s :: rest =>
      if (dlibDetectAt s).length > 0 then (dlibDetectAt s).map (rescaleBox s)
      else multiscaleLoop dlibDetectAt rest

/-- The `face_coordinates` list as of cvision.py line 82 (after the
backend dispatch on lines 65-81, before the final selection on line 84).
`haarDetect` is the opaque result of `_haar_cascade_face_detection` on the
greyscale image, `dlibDetectFull` the opaque result of
`_dlib_face_detection` on the full-resolution greyscale image (the
`else: # Standard Dlib` branch). -/
def rawCoordinates (greySize : ℕ) (method : ℤ) (haarDetect : List FaceBox)
    (dlibDetectAt : ℚ → List FaceBox) (dlibDetectFull : List FaceBox) :
    List FaceBox :=
  if method = ID_FACE_DETECTOR_HAAR_CASCADE then haarDetect
  else if method = ID_FACE_DETECTOR_DLIB then
    multiscaleLoop dlibDetectAt (scaleFactorsFor greySize)
  else dlibDetectFull

/-- cvision.py line 84: `face_coordinates[0] if (len(face_coordinates) > 0
and (np.sum(face_coordinates[0]) > 0)) else None`. -/
def selectBox : List FaceBox → Option FaceBox
  | [] => none
  | b :: _ => if 0 < boxSum b then some b else none

/-- `detect_face` (cvision.py lines 51-84) with its opaque collaborators
as parameters: backend dispatch, multiscale retry loop, then first-box
selection guarded by a positive coordinate sum. -/
def detect_face (greySize : ℕ) (method : ℤ) (haarDetect : List FaceBox)
    (dlibDetectAt : ℚ → List FaceBox) (dlibDetectFull : List FaceBox) :
    Option FaceBox :=
  selectBox (rawCoordinates greySize method haarDetect dlibDetectAt dlibDetectFull)

/-- One ensemble branch's raw output as consumed by `_predict`
(cvision.py lines 214-228): an emotion-score vector and an affect pair
`(valence, arousal)`. -/
structure BranchPrediction where
  emotion : List ℚ
  affect : ℚ × ℚ
deriving DecidableEq, Repr

/-- `np.argmax`: the index of the first occurrence of the maximum of the
vector (numpy's documented tie-break).  On the empty vector `np.argmax`
raises; this total model returns 0 there and is only applied to non-empty
vectors by `aggregate`. -/
def argmaxIdx {α : Type} [LinearOrder α] : List α → ℕ
  | [] => 0
  | x :: xs => if ∀ y ∈ xs, y ≤ x then 0 else argmaxIdx xs + 1

/-- The AffectNet categorical label table.  Modelled from the spec:
`udata.AffectNetCategorical.get_class` lives in `model/utils/udata.py`,
which is not part of the sources here; the spec gives the table
0=Neutral, 1=Happy, 2=Sad, 3=Surprise, 4=Fear, 5=Disgust, 6=Anger,
7=Contempt. -/
def affectNetClassTable : List String :=
  ["Neutral", "Happy", "Sad", "Surprise", "Fear", "Disgust", "Anger", "Contempt"]

/-- Out-of-table fallback for the modelled label lookup (never reached for
index < 8). -/
def noLabel : String := ""

/-- Modelled from the spec: `udata.AffectNetCategorical.get_class(idx)`
maps a class index to its human-readable label via the fixed AffectNet
table. -/
def get_class (i : ℕ) : String :=
  affectNetClassTable.getD i noLabel

/-- `np.clip(x, 0, 1)` on one scalar. -/
def clip01 (q : ℚ) : ℚ :=
  max 0 (min 1 q)

/-- cvision.py line 220: arousal renormalisation
`np.clip((arousal + 1) / 2.0, 0, 1)` applied to the second affect
component, the first (valence) left untouched. -/
def renormAffect (p : ℚ × ℚ) : ℚ × ℚ :=
  (p.1, clip01 ((p.2 + 1) / 2))

/-- `np.mean(affect, 0)` (cvision.py line 222): the elementwise arithmetic
mean of the affect rows. -/
def meanPair (l : List (ℚ × ℚ)) : ℚ × ℚ :=
  ((l.map Prod.fst).sum / l.length, (l.map Prod.snd).sum / l.length)

/-- `emotion_votes[e_idx] += 1` (cvision.py line 236): one vote added at
index `i` of the histogram. -/
def bumpVote (votes : List ℕ) (i : ℕ) : List ℕ :=
  votes.set i (votes.getD i 0 + 1)

/-- The failure mode of `_predict`'s aggregation on contract-violating
ensemble output (the spec's `InvalidEnsembleInput`): in the Python, the
numpy calls raise there — `affect[:, 1]` raises IndexError on the empty
array when there are zero branches, `np.array`/`emotion.shape[1]` raises
on branches with mismatched emotion-vector lengths, and `np.argmax`
raises ValueError on empty score vectors. -/
inductive AggError where
  | invalidEnsembleInput : AggError
deriving DecidableEq, Repr

/-- The aggregation performed by `_predict` (cvision.py lines 210-241) on
the ensemble's raw output: renormalise each branch's arousal, append the
elementwise mean as the consensus affect row (lines 216-224); take each
branch's argmax class, label it, accumulate one vote per branch, and
append the label of the argmax of the vote histogram as the consensus
label (lines 226-239).  The error cases are exactly the inputs on which
the Python raises (see `AggError`). -/
def aggregate : List BranchPrediction →
    Except AggError (List String × List (ℚ × ℚ))
  | [] => Except.error AggError.invalidEnsembleInput
  | b :: bs =>
      if ∀ br ∈ b :: bs, br.emotion.length = b.emotion.length then
        if b.emotion.length = 0 then Except.error AggError.invalidEnsembleInput
        else
          let affect := (b :: bs).map (fun br => renormAffect br.affect)
          let ensemble_affect := meanPair affect
          let to_return_affect := affect ++ [ensemble_affect]
          let num_classes := b.emotion.length
          let idxs := (b :: bs).map (fun br => argmaxIdx br.emotion)
          let to_return_emotion := idxs.map get_class
          let emotion_votes := idxs.foldl bumpVote (List.replicate num_classes 0)
          Except.ok (to_return_emotion ++ [get_class (argmaxIdx emotion_votes)],
                     to_return_affect)
      else Except.error AggError.invalidEnsembleInput

/-- The `FER` result container (`model/esr/fer.py` lines 21-32): every
field defaults to `None`; `FER(image)` populates only `input_image`. -/
structure FER (Img : Type) where
  input_image : Option Img
  face_coordinates : Option FaceBox
  face_image : Option Img
  list_emotion : Option (List String)
  list_affect : Option (List (ℚ × ℚ))
deriving Repr

/-- `recognize_facial_expression` (cvision.py lines 87-123) with the
opaque collaborators as parameters: `crop` stands for the array slice
`image[y0:y1, x0:x1, :]` composed with pre-processing of the face, and
`ensembleOut` for the raw branch outputs of the loaded ESR-9 ensemble on
that face.  When no face is detected the result is `FER(image)`;
otherwise the `_predict` aggregation runs (and its exception on invalid
ensemble output propagates, modelled by `Except.error`). -/
def recognize_facial_expression {Img : Type} (image : Img) (greySize : ℕ)
    (method : ℤ) (haarDetect : List FaceBox) (dlibDetectAt : ℚ → List FaceBox)
    (dlibDetectFull : List FaceBox) (crop : FaceBox → Img)
    (ensembleOut : List BranchPrediction) : Except AggError (FER Img) :=
  match detect_face greySize method haarDetect dlibDetectAt dlibDetectFull with
  | none =>
      Except.ok { input_image := some image, face_coordinates := none,
                  face_image := none, list_emotion := none, list_affect := none }
  | some fc =>
      match aggregate ensembleOut with
      | Except.error e => Except.error e
      | Except.ok (emo, aff) =>
          Except.ok { input_image := some image, face_coordinates := some fc,
                      face_image := some (crop fc), list_emotion := some emo,
                      list_affect := some aff }

/-- The specification's argmax convention: position `i` holds a value that
is greater than or equal to every element of the list and strictly greater
than every element before position `i` — the first maximal element wins. -/
def IsFirstMax {α : Type} [LinearOrder α] (l : List α) (i : ℕ) : Prop :=
  ∃ x, l[i]? = some x ∧ (∀ y ∈ l, y ≤ x) ∧ ∀ y ∈ l.take i, y < x

/-- `argmaxIdx` returns the index of the first maximal element of a
non-empty list. -/
theorem argmaxIdx_isFirstMax {α : Type} [LinearOrder α] :
    ∀ l : List α, l ≠ [] → IsFirstMax l (argmaxIdx l)
  | [], h => absurd rfl h
  | x :: xs, _ => by
      rw [argmaxIdx]
      by_cases hall : ∀ y ∈ xs, y ≤ x
      · rw [if_pos hall]
        refine ⟨x, by simp, ?_, ?_⟩
        · intro y hy
          rcases List.mem_cons.mp hy with h | h
          · exact h ▸ le_refl x
          · exact hall y h
        · intro y hy
          simp at hy
      · rw [if_neg hall]
        push_neg at hall
        obtain ⟨y0, hy0, hxy0⟩ := hall
        have hne : xs ≠ [] := by
          intro h
          rw [h] at hy0
          simp at hy0
        obtain ⟨m, hget, hub, hlt⟩ := argmaxIdx_isFirstMax xs hne
        refine ⟨m, by simpa using hget, ?_, ?_⟩
        · intro y hy
          rcases List.mem_cons.mp hy with h | h
          · exact h ▸ le_of_lt (lt_of_lt_of_le hxy0 (hub y0 hy0))
          · exact hub y h
        · intro y hy
          rw [List.take_succ_cons] at hy
          rcases List.mem_cons.mp hy with h | h
          · exact h ▸ lt_of_lt_of_le hxy0 (hub y0 hy0)
          · exact hlt y h

/-- `argmaxIdx` of a non-empty list is a valid index. -/
theorem argmaxIdx_lt_length {α : Type} [LinearOrder α] :
    ∀ l : List α, l ≠ [] → argmaxIdx l < l.length
  | [], h => absurd rfl h
  | x :: xs, _ => by
      rw [argmaxIdx]
      by_cases hall : ∀ y ∈ xs, y ≤ x
      · rw [if_pos hall]
        simp
      · rw [if_neg hall]
        have hne : xs ≠ [] := by
          intro h
          exact hall (by simp [h])
        simpa [List.length_cons] using Nat.succ_lt_succ (argmaxIdx_lt_length xs hne)

/-- One vote does not change the histogram's length. -/
theorem length_bumpVote (v : List ℕ) (i : ℕ) : (bumpVote v i).length = v.length := by
  simp [bumpVote]

/-- Folding votes does not change the histogram's length. -/
theorem length_foldl_bumpVote :
    ∀ (idxs : List ℕ) (v : List ℕ), (idxs.foldl bumpVote v).length = v.length
  | [], _ => rfl
  | i :: rest, v => by
      rw [List.foldl_cons, length_foldl_bumpVote rest (bumpVote v i), length_bumpVote]

/-- After folding the vote loop, slot `j` of the histogram has gained one
increment per index equal to `j`. -/
theorem getD_foldl_bumpVote :
    ∀ (idxs : List ℕ) (v : List ℕ) (j : ℕ), (∀ i ∈ idxs, i < v.length) →
      (idxs.foldl bumpVote v).getD j 0 = v.getD j 0 + idxs.count j
  | [], v, j, _ => by simp
  | i :: rest, v, j, hmem => by
      rw [List.foldl_cons]
      have hlen : (bumpVote v i).length = v.length := length_bumpVote v i
      have ih := getD_foldl_bumpVote rest (bumpVote v i) j
        (fun a ha => hlen ▸ hmem a (List.mem_cons_of_mem _ ha))
      rw [ih, List.count_cons]
      have hi : i < v.length := hmem i (List.mem_cons_self _ _)
      by_cases hij : i = j
      · subst hij
        have hstep : (bumpVote v i).getD i 0 = v.getD i 0 + 1 := by
          simp [bumpVote, List.getD_eq_getElem?_getD, List.getElem?_set_self hi]
        rw [hstep]
        simp
        omega
      · have hstep : (bumpVote v i).getD j 0 = v.getD j 0 := by
          simp [bumpVote, List.getD_eq_getElem?_getD, List.getElem?_set_ne hij]
        rw [hstep]
        simp [hij]

/-- The specification's vote histogram over `k` classes: slot `c` holds
the number of branches whose argmax class is `c`. -/
def voteHist (idxs : List ℕ) (k : ℕ) : List ℕ :=
  (List.range k).map fun c => idxs.count c

/-- The source's vote loop (`emotion_votes = np.zeros(num_classes)`
followed by `emotion_votes[e_idx] += 1` per branch) computes exactly the
specification's histogram of argmax classes. -/
theorem foldl_bumpVote_eq_voteHist (idxs : List ℕ) (k : ℕ)
    (hmem : ∀ i ∈ idxs, i < k) :
    idxs.foldl bumpVote (List.replicate k 0) = voteHist idxs k := by
  apply List.ext_getElem
  · rw [length_foldl_bumpVote]
    simp [voteHist]
  · intro n h1 h2
    have hn : n < k := by
      rw [length_foldl_bumpVote, List.length_replicate] at h1
      exact h1
    have hD := getD_foldl_bumpVote idxs (List.replicate k 0) n
      (by simpa using hmem)
    have hL : (idxs.foldl bumpVote (List.replicate k 0))[n] =
        (idxs.foldl bumpVote (List.replicate k 0)).getD n 0 := by
      rw [List.getD_eq_getElem?_getD, List.getElem?_eq_getElem h1]
      rfl
    rw [hL, hD]
    simp [voteHist]

/-- `numpy.ndarray.astype(int)` is the identity on an exact integer. -/
theorem ratTrunc_intCast (n : ℤ) : ratTrunc (n : ℚ) = n := by
  unfold ratTrunc
  split_ifs with h
  · exact Int.floor_intCast n
  · exact Int.ceil_intCast n

/-- The ok-case equation of `aggregate`: on a non-empty ensemble whose
branches agree on a positive number of emotion classes, the result pairs
the per-branch argmax labels (consensus label appended) with the
renormalised per-branch affect rows (consensus mean row appended). -/
theorem aggregate_ok (b : BranchPrediction) (bs : List BranchPrediction)
    (hlen : ∀ br ∈ b :: bs, br.emotion.length = b.emotion.length)
    (hk : b.emotion.length ≠ 0) :
    aggregate (b :: bs) =
      Except.ok ((((b :: bs).map fun br => argmaxIdx br.emotion).map get_class) ++
          [get_class (argmaxIdx (voteHist ((b :: bs).map fun br => argmaxIdx br.emotion)
            b.emotion.length))],
        ((b :: bs).map fun br => renormAffect br.affect) ++
          [meanPair ((b :: bs).map fun br => renormAffect br.affect)]) := by
  have hmem : ∀ i ∈ (b :: bs).map (fun br => argmaxIdx br.emotion), i < b.emotion.length := by
    intro i hi
    obtain ⟨br, hbr, rfl⟩ := List.mem_map.mp hi
    have h1 : br.emotion ≠ [] := by
      intro h0
      exact hk (by rw [← hlen br hbr, h0]; rfl)
    have := argmaxIdx_lt_length br.emotion h1
    rwa [hlen br hbr] at this
  rw [aggregate, if_pos hlen, if_neg hk]
  show Except.ok
      ((((b :: bs).map fun br => argmaxIdx br.emotion).map get_class) ++
        [get_class (argmaxIdx (((b :: bs).map fun br => argmaxIdx br.emotion).foldl bumpVote
          (List.replicate b.emotion.length 0)))],
       ((b :: bs).map fun br => renormAffect br.affect) ++
         [meanPair ((b :: bs).map fun br => renormAffect br.affect)]) = _
  rw [foldl_bumpVote_eq_voteHist _ _ hmem]

/-- If the detector finds no face at any scale, the multiscale loop ends
with the empty coordinate list. -/
theorem multiscaleLoop_empty :
    ∀ (dAt : ℚ → List FaceBox) (scales : List ℚ),
      (∀ s ∈ scales, dAt s = []) → multiscaleLoop dAt scales = []
  | _, [], _ => rfl
  | dAt, s :: rest, hall => by
      rw [multiscaleLoop, hall s (List.mem_cons_self _ _)]
      simpa using multiscaleLoop_empty dAt rest
        (fun a ha => hall a (List.mem_cons_of_mem _ ha))

/-- The multiscale loop stops at the first scale (in list order) whose
detector run returns at least one face, and returns those boxes rescaled
by that scale; later scales are never consulted. -/
theorem multiscaleLoop_firstScale :
    ∀ (dAt : ℚ → List FaceBox) (scales : List ℚ) (i : ℕ), i < scales.length →
      (∀ j, j < i → dAt (scales.getD j 0) = []) →
      dAt (scales.getD i 0) ≠ [] →
      multiscaleLoop dAt scales =
        (dAt (scales.getD i 0)).map (rescaleBox (scales.getD i 0))
  | _, [], i, hi, _, _ => by simp at hi
  | dAt, s :: rest, 0, _, _, hne => by
      rw [List.getD_cons_zero] at hne ⊢
      rw [multiscaleLoop, if_pos (by simpa using List.length_pos.mpr hne)]
  | dAt, s :: rest, i + 1, hi, hj, hne => by
      have h0 : dAt s = [] := by
        simpa using hj 0 (Nat.succ_pos i)
      rw [List.getD_cons_succ] at hne ⊢
      rw [multiscaleLoop, h0]
      simp only [List.length_nil, gt_iff_lt, lt_irrefl, if_false]
      exact multiscaleLoop_firstScale dAt rest i (by simpa using hi)
        (fun j hji => by simpa using hj (j + 1) (Nat.succ_lt_succ hji)) hne

/-- Claim C1: on every non-empty ensemble output (with agreeing, non-empty
emotion vectors, i.e. where the aggregation succeeds), each branch's
predicted class index is the argmax of its emotion-score vector with ties
broken by the lowest index (first maximal element wins); the vote
histogram accumulates one increment per branch for its argmax class
(`voteHist` counts the branches per argmax class); and the consensus label
appended last is the label of the class index with the highest vote count,
ties broken by lowest class index. -/
theorem aggregate_majority_vote (b : BranchPrediction) (bs : List BranchPrediction)
    (hlen : ∀ br ∈ b :: bs, br.emotion.length = b.emotion.length)
    (hk : b.emotion.length ≠ 0) :
    (∃ affects,
      aggregate (b :: bs) =
        Except.ok (((b :: bs).map fun br => get_class (argmaxIdx br.emotion)) ++
          [get_class (argmaxIdx (voteHist ((b :: bs).map fun br => argmaxIdx br.emotion)
            b.emotion.length))], affects)) ∧
    (∀ br ∈ b :: bs, IsFirstMax br.emotion (argmaxIdx br.emotion)) ∧
    IsFirstMax (voteHist ((b :: bs).map fun br => argmaxIdx br.emotion) b.emotion.length)
      (argmaxIdx (voteHist ((b :: bs).map fun br => argmaxIdx br.emotion)
        b.emotion.length)) := by
  refine ⟨⟨((b :: bs).map fun br => renormAffect br.affect) ++
      [meanPair ((b :: bs).map fun br => renormAffect br.affect)], ?_⟩, ?_, ?_⟩
  · rw [aggregate_ok b bs hlen hk, List.map_map]
    rfl
  · intro br hbr
    apply argmaxIdx_isFirstMax
    intro h0
    exact hk (by rw [← hlen br hbr, h0]; rfl)
  · apply argmaxIdx_isFirstMax
    intro h0
    have hL : (voteHist ((b :: bs).map fun br => argmaxIdx br.emotion)
        b.emotion.length).length = 0 := by
      rw [h0]
      rfl
    rw [voteHist] at hL
    simp at hL
    exact hk (List.length_eq_zero.mpr hL)

/-- Concrete instantiation of claim C1: three branches whose argmax
classes are [1, 1, 2] get the consensus label of class 1, and a tie vote
between classes 0 and 1 resolves to class 0. -/
theorem aggregate_majority_vote_witness :
    (∃ affects,
      aggregate [⟨[0, 5, 3], (1/5, -1)⟩, ⟨[1, 7, 2], (4/5, 1)⟩, ⟨[0, 1, 9], (0, 0)⟩] =
        Except.ok (["Happy", "Happy", "Sad", "Happy"], affects)) ∧
    get_class (argmaxIdx (voteHist [1, 1, 2] 3)) = "Happy" ∧
    get_class (argmaxIdx (voteHist [0, 1] 2)) = "Neutral" := by
  obtain ⟨⟨affects, hA⟩, -, -⟩ :=
    aggregate_majority_vote ⟨[0, 5, 3], (1/5, -1)⟩
      [⟨[1, 7, 2], (4/5, 1)⟩, ⟨[0, 1, 9], (0, 0)⟩] (by decide) (by decide)

  refine ⟨⟨affects, ?_⟩, by decide, by decide⟩
  rw [hA, Except.ok.injEq, Prod.mk.injEq]
  exact ⟨by decide, rfl⟩

/-- Claim C2: on every non-empty ensemble output (where the aggregation
succeeds), each branch's arousal is renormalised to
`clip01((arousal + 1) / 2)` while its valence passes through unchanged,
and the consensus affect row appended last is the elementwise arithmetic
mean (`meanPair`) of the renormalised rows. -/
theorem aggregate_affect_consensus (b : BranchPrediction) (bs : List BranchPrediction)
    (hlen : ∀ br ∈ b :: bs, br.emotion.length = b.emotion.length)
    (hk : b.emotion.length ≠ 0) :
    ∃ labels,
      aggregate (b :: bs) =
        Except.ok (labels,
          ((b :: bs).map fun br => (br.affect.1, clip01 ((br.affect.2 + 1) / 2))) ++
          [meanPair ((b :: bs).map fun br =>
            (br.affect.1, clip01 ((br.affect.2 + 1) / 2)))]) := by
  refine ⟨(((b :: bs).map fun br => argmaxIdx br.emotion).map get_class) ++
      [get_class (argmaxIdx (voteHist ((b :: bs).map fun br => argmaxIdx br.emotion)
        b.emotion.length))], ?_⟩
  rw [aggregate_ok b bs hlen hk]
  rfl

/-- Concrete instantiation of claim C2: affect inputs (0.2, -1) and
(0.8, 1) renormalise to arousals 0 and 1, and the consensus affect row is
(0.5, 0.5). -/
theorem aggregate_affect_consensus_witness :
    ∃ labels,
      aggregate [⟨[1, 0], (1/5, -1)⟩, ⟨[1, 0], (4/5, 1)⟩] =
        Except.ok (labels, [(1/5, 0), (4/5, 1), (1/2, 1/2)]) := by
  obtain ⟨labels, hL⟩ :=
    aggregate_affect_consensus ⟨[1, 0], (1/5, -1)⟩ [⟨[1, 0], (4/5, 1)⟩]
      (by decide) (by decide)
  refine ⟨labels, ?_⟩
  rw [hL, Except.ok.injEq, Prod.mk.injEq]
  refine ⟨rfl, ?_⟩
  norm_num [clip01, meanPair]

/-- Claim C3: the aggregation fails fast on invalid ensemble input — an
ensemble with zero branches, or with branches reporting differing numbers
of emotion classes, produces the `InvalidEnsembleInput` error rather than
any ok result. -/
theorem aggregate_invalid_ensemble_input :
    aggregate [] = Except.error AggError.invalidEnsembleInput ∧
    ∀ branches : List BranchPrediction, ∀ b1 ∈ branches, ∀ b2 ∈ branches,
      b1.emotion.length ≠ b2.emotion.length →
      aggregate branches = Except.error AggError.invalidEnsembleInput := by
  refine ⟨rfl, ?_⟩
  intro branches b1 hb1 b2 hb2 hne
  cases branches with
  | nil => simp at hb1
  | cons b bs =>
      have hnall : ¬ ∀ br ∈ b :: bs, br.emotion.length = b.emotion.length := by
        intro hall
        exact hne ((hall b1 hb1).trans (hall b2 hb2).symm)
      rw [aggregate, if_neg hnall]

/-- Concrete instantiation of claim C3: the empty ensemble and an ensemble
whose branches report 1 and 2 emotion classes both fail. -/
theorem aggregate_invalid_ensemble_input_witness :
    aggregate [] = Except.error AggError.invalidEnsembleInput ∧
    aggregate [⟨[1], (0, 0)⟩, ⟨[1, 2], (0, 0)⟩] =
      Except.error AggError.invalidEnsembleInput :=
  ⟨aggregate_invalid_ensemble_input.1,
    aggregate_invalid_ensemble_input.2 [⟨[1], (0, 0)⟩, ⟨[1, 2], (0, 0)⟩]
      ⟨[1], (0, 0)⟩ (by decide) ⟨[1, 2], (0, 0)⟩ (by decide) (by decide)⟩

/-- Claim C4: whenever the aggregation succeeds on an ensemble of n
branches, the emotion-label list and the affect-row list both have length
exactly n + 1 (one entry per branch plus the consensus entry). -/
theorem aggregate_output_lengths (branches : List BranchPrediction)
    (labels : List String) (affects : List (ℚ × ℚ))
    (h : aggregate branches = Except.ok (labels, affects)) :
    labels.length = branches.length + 1 ∧ affects.length = branches.length + 1 := by
  cases branches with
  | nil => simp [aggregate] at h
  | cons b bs =>
      by_cases h1 : ∀ br ∈ b :: bs, br.emotion.length = b.emotion.length
      · by_cases h2 : b.emotion.length = 0
        · rw [aggregate, if_pos h1, if_pos h2] at h
          simp at h
        · rw [aggregate_ok b bs h1 h2, Except.ok.injEq, Prod.mk.injEq] at h
          obtain ⟨hE, hA⟩ := h
          rw [← hE, ← hA]
          constructor
          · simp
          · simp
      · rw [aggregate, if_neg h1] at h
        simp at h

/-- Concrete instantiation of claim C4: a 1-branch ensemble yields 2
labels and 2 affect rows. -/
theorem aggregate_output_lengths_witness :
    ∃ labels affects,
      aggregate [⟨[2, 1], (0, 0)⟩] = Except.ok (labels, affects) ∧
      labels.length = 2 ∧ affects.length = 2 := by
  have h : aggregate [⟨[2, 1], (0, 0)⟩] =
      Except.ok (["Neutral", "Neutral"], [(0, 1/2), (0, 1/2)]) := by
    norm_num [aggregate, argmaxIdx, get_class, affectNetClassTable, noLabel,
      renormAffect, clip01, meanPair, bumpVote, voteHist]
  have hlen := aggregate_output_lengths [⟨[2, 1], (0, 0)⟩] _ _ h
  exact ⟨_, _, h, hlen.1, hlen.2⟩

/-- Claim C5: for the multiscale CNN detector backend, the scale-factor
list is [0.2, 0.5] exactly when the greyscale pixel count exceeds 250000
and [0.5, 1.0] otherwise; scales are tried in list order and the loop
stops at the first scale whose detector run returns at least one face,
rescaling the returned box coordinates by 1/scale (an exact integer
multiplication by 5, 2 or 1); if no scale yields a detection the adapter
returns none. -/
theorem detect_face_multiscale :
    (∀ greySize : ℕ, greySize > 250000 → scaleFactorsFor greySize = [1/5, 1/2]) ∧
    (∀ greySize : ℕ, greySize ≤ 250000 → scaleFactorsFor greySize = [1/2, 1]) ∧
    (∀ (dAt : ℚ → List FaceBox) (scales : List ℚ) (i : ℕ), i < scales.length →
      (∀ j, j < i → dAt (scales.getD j 0) = []) →
      dAt (scales.getD i 0) ≠ [] →
      multiscaleLoop dAt scales =
        (dAt (scales.getD i 0)).map (rescaleBox (scales.getD i 0))) ∧
    (∀ b : FaceBox,
      rescaleBox (1/5) b = ⟨5 * b.xi, 5 * b.yi, 5 * b.xf, 5 * b.yf⟩ ∧
      rescaleBox (1/2) b = ⟨2 * b.xi, 2 * b.yi, 2 * b.xf, 2 * b.yf⟩ ∧
      rescaleBox 1 b = b) ∧
    (∀ (greySize : ℕ) (haarDetect : List FaceBox) (dAt : ℚ → List FaceBox)
        (dlibDetectFull : List FaceBox),
      (∀ s ∈ scaleFactorsFor greySize, dAt s = []) →
      detect_face greySize ID_FACE_DETECTOR_DLIB haarDetect dAt dlibDetectFull =
        none) := by
  have h5 : ∀ z : ℤ, ratTrunc ((1 / (1/5 : ℚ)) * z) = 5 * z := by
    intro z
    have h : ((1 / (1/5 : ℚ)) * z) = ((5 * z : ℤ) : ℚ) := by
      push_cast
      ring
    rw [h, ratTrunc_intCast]
  have h2 : ∀ z : ℤ, ratTrunc ((1 / (1/2 : ℚ)) * z) = 2 * z := by
    intro z
    have h : ((1 / (1/2 : ℚ)) * z) = ((2 * z : ℤ) : ℚ) := by
      push_cast
      ring
    rw [h, ratTrunc_intCast]
  have h1 : ∀ z : ℤ, ratTrunc ((1 / (1 : ℚ)) * z) = z := by
    intro z
    have h : ((1 / (1 : ℚ)) * z) = ((z : ℤ) : ℚ) := by
      ring
    rw [h, ratTrunc_intCast]
  refine ⟨?_, ?_, multiscaleLoop_firstScale, ?_, ?_⟩
  · intro g hg
    rw [scaleFactorsFor,
      if_pos (by norm_num [DLIB_SCALE_FACTOR_THRESHOLD]; omega)]
    rfl
  · intro g hg
    rw [scaleFactorsFor,
      if_neg (by norm_num [DLIB_SCALE_FACTOR_THRESHOLD]; omega)]
    rfl
  · intro b
    refine ⟨?_, ?_, ?_⟩
    · simp only [rescaleBox, h5]
    · simp only [rescaleBox, h2]
    · simp only [rescaleBox, h1]
  · intro g haar dAt full hall
    rw [detect_face, rawCoordinates,
      if_neg (by norm_num [ID_FACE_DETECTOR_DLIB, ID_FACE_DETECTOR_HAAR_CASCADE]),
      if_pos rfl, multiscaleLoop_empty dAt _ hall]
    rfl

/-- Concrete instantiation of claim C5: a 300000-pixel image selects the
large-image scale list; with a detector that fails at 0.2 and succeeds at
0.5 the loop stops at 0.5 and doubles the coordinates; a detector that
fails at every scale yields none. -/
theorem detect_face_multiscale_witness :
    scaleFactorsFor 300000 = [1/5, 1/2] ∧
    multiscaleLoop (fun s => if s = (1/2 : ℚ) then [⟨1, 2, 3, 4⟩] else [])
      [1/5, 1/2] = [⟨2, 4, 6, 8⟩] ∧
    detect_face 300000 ID_FACE_DETECTOR_DLIB [⟨7, 7, 7, 7⟩] (fun _ => [])
      [⟨9, 9, 9, 9⟩] = none := by
  refine ⟨detect_face_multiscale.1 300000 (by norm_num), ?_, ?_⟩
  · have hj : ∀ j, j < 1 →
        (fun s => if s = (1/2 : ℚ) then [(⟨1, 2, 3, 4⟩ : FaceBox)] else [])
          (([1/5, 1/2] : List ℚ).getD j 0) = [] := by
      intro j hlt
      have h0 : j = 0 := by omega
      subst h0
      simp only [List.getD_cons_zero]
      norm_num
    have hne : (fun s => if s = (1/2 : ℚ) then [(⟨1, 2, 3, 4⟩ : FaceBox)] else [])
        (([1/5, 1/2] : List ℚ).getD 1 0) ≠ [] := by
      simp only [List.getD_cons_succ, List.getD_cons_zero]
      norm_num
    have h := detect_face_multiscale.2.2.1
      (fun s => if s = (1/2 : ℚ) then [(⟨1, 2, 3, 4⟩ : FaceBox)] else [])
      [1/5, 1/2] 1 (by norm_num) hj hne
    rw [h]
    have hres : rescaleBox (1/2) (⟨1, 2, 3, 4⟩ : FaceBox) = ⟨2, 4, 6, 8⟩ := by
      rw [(detect_face_multiscale.2.2.2.1 (⟨1, 2, 3, 4⟩ : FaceBox)).2.1]
      decide
    simp only [List.getD_cons_succ, List.getD_cons_zero, if_pos rfl, if_true,
      List.map_cons, List.map_nil, hres]
  · exact detect_face_multiscale.2.2.2.2 300000 [⟨7, 7, 7, 7⟩] (fun _ => [])
      [⟨9, 9, 9, 9⟩] (fun s _ => rfl)

/-- Claim C6: when the detector backend returns one or more candidate
boxes, the adapter considers only the first box in the backend's native
return order (the remaining candidates never influence the result),
returns it when its coordinate sum is positive, and treats a first box
whose coordinate sum is exactly zero the same as no detection. -/
theorem detect_face_first_box (greySize : ℕ) (method : ℤ) (haarDetect : List FaceBox)
    (dAt : ℚ → List FaceBox) (dlibDetectFull : List FaceBox) (b : FaceBox)
    (rest : List FaceBox)
    (h : rawCoordinates greySize method haarDetect dAt dlibDetectFull = b :: rest) :
    (∀ rest2, selectBox (b :: rest2) = selectBox (b :: rest)) ∧
    (0 < boxSum b →
      detect_face greySize method haarDetect dAt dlibDetectFull = some b) ∧
    (boxSum b = 0 →
      detect_face greySize method haarDetect dAt dlibDetectFull = none) := by
  refine ⟨fun rest2 => rfl, ?_, ?_⟩
  · intro hpos
    rw [detect_face, h, selectBox, if_pos hpos]
  · intro hzero
    rw [detect_face, h, selectBox, if_neg (by rw [hzero]; exact lt_irrefl 0)]

/-- Concrete instantiation of claim C6: a first box summing to zero gives
none even though a valid second box follows; a positive first box is
returned and the second box is discarded. -/
theorem detect_face_first_box_witness :
    detect_face 100 ID_FACE_DETECTOR_DLIB_STANDARD [] (fun _ => [])
      [⟨0, 0, 0, 0⟩, ⟨1, 2, 3, 4⟩] = none ∧
    detect_face 100 ID_FACE_DETECTOR_DLIB_STANDARD [] (fun _ => [])
      [⟨1, 2, 3, 4⟩, ⟨9, 9, 9, 9⟩] = some ⟨1, 2, 3, 4⟩ :=
  ⟨(detect_face_first_box 100 ID_FACE_DETECTOR_DLIB_STANDARD [] (fun _ => [])
      [⟨0, 0, 0, 0⟩, ⟨1, 2, 3, 4⟩] ⟨0, 0, 0, 0⟩ [⟨1, 2, 3, 4⟩] (by decide)).2.2 (by decide),
    (detect_face_first_box 100 ID_FACE_DETECTOR_DLIB_STANDARD [] (fun _ => [])
      [⟨1, 2, 3, 4⟩, ⟨9, 9, 9, 9⟩] ⟨1, 2, 3, 4⟩ [⟨9, 9, 9, 9⟩] (by decide)).2.1 (by decide)⟩

/-- Claim C10: the no-detection test is a strict positivity test on the
first box's coordinate sum — any first box whose coordinates sum to a
non-positive value (zero or negative) makes `detect_face` return none. -/
theorem detect_face_nonpositive_sum (greySize : ℕ) (method : ℤ)
    (haarDetect : List FaceBox) (dAt : ℚ → List FaceBox)
    (dlibDetectFull : List FaceBox) (b : FaceBox) (rest : List FaceBox)
    (h : rawCoordinates greySize method haarDetect dAt dlibDetectFull = b :: rest)
    (hs : boxSum b ≤ 0) :
    detect_face greySize method haarDetect dAt dlibDetectFull = none := by
  rw [detect_face, h, selectBox, if_neg (not_lt.mpr hs)]

/-- Concrete instantiation of claim C10: a first box with a negative
coordinate sum (-5 + 2 + 1 + 1 = -1) yields none. -/
theorem detect_face_nonpositive_sum_witness :
    detect_face 100 ID_FACE_DETECTOR_DLIB_STANDARD [] (fun _ => [])
      [⟨-5, 2, 1, 1⟩] = none :=
  detect_face_nonpositive_sum 100 ID_FACE_DETECTOR_DLIB_STANDARD [] (fun _ => [])
    [⟨-5, 2, 1, 1⟩] ⟨-5, 2, 1, 1⟩ [] (by decide) (by decide)

/-- Claim C7: on every input on which the detector finds no face,
`recognize_facial_expression` returns (rather than raising) a FER result
whose face box, face image, emotion list and affect list are all absent
and whose original-image field is the input image unchanged. -/
theorem recognize_no_face {Img : Type} (image : Img) (greySize : ℕ) (method : ℤ)
    (haarDetect : List FaceBox) (dAt : ℚ → List FaceBox) (dlibDetectFull : List FaceBox)
    (crop : FaceBox → Img) (ensembleOut : List BranchPrediction)
    (h : detect_face greySize method haarDetect dAt dlibDetectFull = none) :
    recognize_facial_expression image greySize method haarDetect dAt dlibDetectFull
        crop ensembleOut =
      Except.ok { input_image := some image, face_coordinates := none,
                  face_image := none, list_emotion := none, list_affect := none } := by
  unfold recognize_facial_expression
  rw [h]

/-- Concrete instantiation of claim C7: with a detector that reports no
boxes, the result carries only the original image. -/
theorem recognize_no_face_witness :
    recognize_facial_expression (7 : ℕ) 100 ID_FACE_DETECTOR_DLIB_STANDARD []
        (fun _ => []) [] (fun _ => 0) [] =
      Except.ok { input_image := some 7, face_coordinates := none, face_image := none,
                  list_emotion := none, list_affect := none } :=
  recognize_no_face 7 100 ID_FACE_DETECTOR_DLIB_STANDARD [] (fun _ => []) []
    (fun _ => 0) [] (by decide)

/-- Claim C8 counterexample: the backend dispatch of `detect_face` has no
error case — an unrecognized selector value (here 99, not one of the three
recognized ids 1, 2, 3) falls into the `else: # Standard Dlib` branch,
runs the standard Dlib detector and returns its first box instead of
raising an UnsupportedBackendSelector error. -/
theorem detect_face_unknown_selector_runs_detector :
    detect_face 100 99 [] (fun _ => []) [⟨1, 2, 3, 4⟩] = some ⟨1, 2, 3, 4⟩ := by
  decide

/-- Claim C8 amended: every selector value other than the Haar-cascade id
(3) and the multiscale-Dlib id (1) — including the standard-Dlib id 2 and
any unrecognized value — dispatches to the standard full-resolution Dlib
detector and returns its first-box selection; no error is raised. -/
theorem detect_face_selector_fallthrough (greySize : ℕ) (method : ℤ)
    (haarDetect : List FaceBox) (dAt : ℚ → List FaceBox)
    (dlibDetectFull : List FaceBox)
    (h3 : method ≠ ID_FACE_DETECTOR_HAAR_CASCADE)
    (h1 : method ≠ ID_FACE_DETECTOR_DLIB) :
    detect_face greySize method haarDetect dAt dlibDetectFull =
      selectBox dlibDetectFull := by
  rw [detect_face, rawCoordinates, if_neg h3, if_neg h1]

/-- Concrete instantiation of the amended claim C8: selector 0 is not a
recognized id, yet the standard Dlib detector's first-box selection is
returned. -/
theorem detect_face_selector_fallthrough_witness :
    detect_face 50 0 [⟨9, 9, 9, 9⟩] (fun _ => [⟨8, 8, 8, 8⟩]) [⟨1, 1, 1, 1⟩] =
      selectBox [⟨1, 1, 1, 1⟩] :=
  detect_face_selector_fallthrough 50 0 [⟨9, 9, 9, 9⟩] (fun _ => [⟨8, 8, 8, 8⟩])
    [⟨1, 1, 1, 1⟩] (by decide) (by decide)

end CVision
